import Mathlib

/-!
Verification development for the mali-vulkan-icd-wrapper repository.

This file gives a shallow embedding, in Lean 4, of the parts of the wrapper
that the specification's testable properties talk about:

* the virtual address allocator
  (src/src/extensions/map_memory_placed/address_allocator.cpp),
* the placed memory mapper
  (src/src/extensions/map_memory_placed/memory_mapper.cpp),
* the function-resolution routers
  (src/src/core/mali_wrapper_icd.cpp and src/src/core/vulkan_dispatch.cpp),
* the instance lifecycle: the destroy-request handler
  `internal_vkDestroyInstance` (src/src/core/mali_wrapper_icd.cpp) is
  embedded from the source; the reference-count bookkeeping declared in
  src/src/core/wsi_manager.hpp has no definition under src/ and is
  modelled from the spec where noted.

Conventions of the embedding:

* Machine addresses and sizes (`void*`, `size_t`, `VkDeviceSize`) are
  modelled as `Nat`; the null pointer is the value `0`.  None of the
  concrete scenarios below comes anywhere near 2^64, and the C++ code
  performs no arithmetic that wraps on the exercised paths.
* `std::vector<AddressRange>` and the `std::unordered_map`s are modelled as
  lists and association lists.  Iteration order of an `unordered_map` /
  `unordered_set` is abstracted as the order of the list, with `begin()`
  being the head.
* IMPORTANT modelling note for the allocator.  In
  `VirtualAddressAllocator::AllocateAddress` and
  `AllocateSpecificAddress` the C++ code keeps a reference `range` into the
  `ranges_` vector and then calls `ranges_.insert(...)` at or before the
  referenced position, after which it writes through `range`.
  `std::vector::insert` invalidates references at and after the insertion
  point.  In the concrete non-reallocating behaviour (the deterministic
  reading of what the machine does when the buffer does not move) the
  reference keeps denoting the same *slot*, which after the insertion holds
  the newly inserted element.  The embedding below reproduces exactly that
  slot semantics; the comments on each function spell out the resulting
  list.  (When the buffer does reallocate, the writes land in freed memory
  and are lost entirely — the range list is corrupted in that case too,
  only differently.)
* External effects (the real driver's map/unmap, `mmap`/`mprotect`
  redirection, WSI layer lookups) are oracles supplied in an environment
  record; the embedding tracks how many times the driver-level unmap is
  invoked where a claim needs it.
-/

set_option linter.unusedVariables false

namespace MaliWrapper

/-! ## Generic association-list operations

`std::unordered_map` keyed by handles/addresses, with unique keys.
`lookupA` is `find`, `upsertA` is `operator[]= ` (replace if present,
append otherwise), `eraseA` is `erase`. -/

def lookupA {α : Type} (k : Nat) : List (Nat × α) → Option α
  | [] => none
  | (k0, v) :: rest => if k0 = k then some v else lookupA k rest

def upsertA {α : Type} (k : Nat) (v : α) : List (Nat × α) → List (Nat × α)
  | [] => [(k, v)]
  | (k0, v0) :: rest => if k0 = k then (k0, v) :: rest else (k0, v0) :: upsertA k v rest

def eraseA {α : Type} (k : Nat) : List (Nat × α) → List (Nat × α)
  | [] => []
  | (k0, v0) :: rest => if k0 = k then rest else (k0, v0) :: eraseA k rest

def keysOf {α : Type} (l : List (Nat × α)) : List Nat := l.map Prod.fst

/-! ## Virtual address allocator

Embedding of `VirtualAddressAllocator`
(src/src/extensions/map_memory_placed/address_allocator.cpp).
`AddressRange` mirrors the C++ struct of the same name; an allocator state
carries the pool parameters, the `ranges_` vector and the `allocations_`
map.  A constructed pool starts as one free range covering the whole pool
(constructor line 22).  `baseAddress = 0` plays the role of a null
`pool_start_` (failed construction). -/

structure AddressRange where
  start : Nat
  size : Nat
  isFree : Bool
deriving DecidableEq, Repr

structure AllocatorState where
  baseAddress : Nat
  poolSize : Nat
  ranges : List AddressRange
  allocations : List (Nat × Nat)
deriving DecidableEq, Repr

/-- Freshly constructed pool: a single free range covering the pool. -/
def freshPool (base size : Nat) : AllocatorState :=
  ⟨base, size, [⟨base, size, true⟩], []⟩

/-- Embedding of `VirtualAddressAllocator::IsAddressInPool`. -/
def isAddressInPool (s : AllocatorState) (addr : Nat) : Bool :=
  s.baseAddress ≠ 0 && addr ≠ 0 && s.baseAddress ≤ addr && addr < s.baseAddress + s.poolSize

/-- Embedding of `VirtualAddressAllocator::AlignAddress`.  The C++ computes
`(addr + alignment - 1) & ~(alignment - 1)`, which for the power-of-two
alignments the allocator documents (and the single alignment 4096 actually
used by the mapper) equals rounding up to the next multiple. -/
def alignUp (addr alignment : Nat) : Nat :=
  if alignment ≤ 1 then addr else ((addr + alignment - 1) / alignment) * alignment

/-- Pointer arithmetic in the allocator is 64-bit: the end addresses
`range_start + range.size` and `preferred_start + size`
(`char* + size_t`, address_allocator.cpp lines 96-98) wrap modulo 2^64.
This matters because the sizes reaching `AllocateSpecificAddress` come
from the application (`VkMemoryMapInfoKHR::size`, which may be
`VK_WHOLE_SIZE` = 2^64 − 1), at which the end-address computation
wraps around. -/
def ptrMod : Nat := 2 ^ 64

/-- Result of the write-back sequence in `AllocateSpecificAddress`
(lines 107-119) on the matching range `r`, under the slot semantics
described in the header comment.  With `pEnd`/`rEnd` the 64-bit
(wrapping) end addresses, `offB = preferred - r.start` (`offset_before`)
and `offA = rEnd - pEnd` (`offset_after`):

* `offB = 0`: no leading insert, so the reference still denotes `r`, which
  is overwritten with the allocated range; a trailing free fragment is
  inserted after it when `offA > 0`.  This is the intended outcome.
* `offB > 0`: the leading fragment is inserted at the referenced slot, the
  reference now denotes that fragment, and the final write-back turns the
  *fragment* into the allocated range, leaving the original range `r`
  untouched (still free, still full size) right after it. -/
def allocSpecMutate (preferred size : Nat) (r : AddressRange) : List AddressRange :=
  let rEnd := (r.start + r.size) % ptrMod
  let pEnd := (preferred + size) % ptrMod
  let offB := preferred - r.start
  let offA := rEnd - pEnd
  if offB = 0 then
    if offA = 0 then [⟨preferred, size, false⟩]
    else [⟨preferred, size, false⟩, ⟨pEnd, offA, true⟩]
  else
    if offA = 0 then [⟨preferred, size, false⟩, r]
    else [⟨preferred, size, false⟩, r, ⟨pEnd, offA, true⟩]

/-- The range-scanning loop of `AllocateSpecificAddress` (lines 90-128):
skip non-free ranges and ranges whose span does not contain the request
according to the pointer comparisons `preferred_start < range_start` and
`preferred_end > range_end` (line 100), where both end addresses are the
wrapping 64-bit sums; mutate the first matching one.  `none` means the
loop fell through (allocation fails, vector untouched). -/
def allocSpecGo (preferred size : Nat) : List AddressRange → Option (List AddressRange)
  | [] => none
  | r :: rest =>
    if r.isFree = true ∧ r.start ≤ preferred ∧
        (preferred + size) % ptrMod ≤ (r.start + r.size) % ptrMod then
      some (allocSpecMutate preferred size r ++ rest)
    else
      match allocSpecGo preferred size rest with
      | none => none
      | some l => some (r :: l)

/-- Embedding of `VirtualAddressAllocator::AllocateSpecificAddress`
(lines 83-133).  Guard clauses at line 84; on success the allocation is
recorded in `allocations_` (line 121) and the preferred address returned. -/
def allocateSpecificAddress (s : AllocatorState) (preferred size : Nat) :
    Option Nat × AllocatorState :=
  if preferred = 0 ∨ size = 0 ∨ isAddressInPool s preferred = false then (none, s)
  else
    match allocSpecGo preferred size s.ranges with
    | none => (none, s)
    | some rs =>
      (some preferred,
        { s with ranges := rs, allocations := upsertA preferred size s.allocations })

/-- Result of the write-back sequence in `AllocateAddress` (lines 54-69) on
the matching range `r`, slot semantics.  With `offset > 0` the leading free
fragment is inserted at the referenced slot; the subsequent writes
`range.start = aligned_start; range.size -= offset` turn the *fragment*
into `(aligned, 0, free)`, the trailing-split test `range.size > size`
compares `0 > size` and never fires, and the final write-back leaves
`(aligned, size, used)` in the slot with the original range `r` untouched
after it.  With `offset = 0` the insertion point is after the reference and
the intended split happens. -/
def allocAnyMutate (size : Nat) (r : AddressRange) (aligned offset : Nat) :
    List AddressRange :=
  if offset = 0 then
    if size < r.size then
      [⟨r.start, size, false⟩, ⟨r.start + size, r.size - size, true⟩]
    else [⟨r.start, size, false⟩]
  else
    [⟨aligned, size, false⟩, r]

/-- The range-scanning loop of `AllocateAddress` (lines 42-77): first free
range in which the aligned sub-range fits. Returns the address handed out
and the new range list. -/
def allocAnyGo (size alignment : Nat) : List AddressRange → Option (Nat × List AddressRange)
  | [] => none
  | r :: rest =>
    let aligned := alignUp r.start alignment
    let offset := aligned - r.start
    if r.isFree = true ∧ size ≤ r.size ∧ offset + size ≤ r.size then
      some (aligned, allocAnyMutate size r aligned offset ++ rest)
    else
      match allocAnyGo size alignment rest with
      | none => none
      | some (a, l) => some (a, r :: l)

/-- Embedding of `VirtualAddressAllocator::AllocateAddress` (lines 35-81).
The header declares the default argument `alignment = 4096`, which is what
the memory mapper's call site uses. -/
def allocateAddress (s : AllocatorState) (size alignment : Nat) :
    Option Nat × AllocatorState :=
  if size = 0 ∨ s.baseAddress = 0 then (none, s)
  else
    match allocAnyGo size alignment s.ranges with
    | none => (none, s)
    | some (addr, rs) =>
      (some addr,
        { s with ranges := rs, allocations := upsertA addr size s.allocations })

/-- Insertion into a start-sorted list, used to model `SortRanges`
(lines 253-258, `std::sort` by `start <`).  All reachable states in the
scenarios below have pairwise distinct starts, for which the sorted
permutation is unique, so stability questions do not arise. -/
def insertByStart (r : AddressRange) : List AddressRange → List AddressRange
  | [] => [r]
  | x :: xs => if r.start < x.start then r :: x :: xs else x :: insertByStart r xs

/-- Embedding of `VirtualAddressAllocator::SortRanges`. -/
def sortRanges (l : List AddressRange) : List AddressRange :=
  l.foldr insertByStart []

/-- The merging loop of `CoalesceRanges` (lines 238-250): merge a pair of
adjacent free ranges whose addresses abut and stay at the same index,
otherwise advance.  The `fuel` argument only makes the recursion
structural so the definition computes inside the kernel; every step
shortens the list, so fuel equal to the list's length (as supplied by
`mergeAdjacent`) is never exhausted. -/
def mergeAdjacentFuel : Nat → List AddressRange → List AddressRange
  | 0, l => l
  | _ + 1, [] => []
  | _ + 1, [r] => [r]
  | fuel + 1, r1 :: r2 :: rest =>
    if r1.isFree = true ∧ r2.isFree = true ∧ r1.start + r1.size = r2.start then
      mergeAdjacentFuel fuel (⟨r1.start, r1.size + r2.size, r1.isFree⟩ :: rest)
    else
      r1 :: mergeAdjacentFuel fuel (r2 :: rest)

def mergeAdjacent (l : List AddressRange) : List AddressRange :=
  mergeAdjacentFuel l.length l

/-- Embedding of `VirtualAddressAllocator::CoalesceRanges` (lines 231-251):
sort by start address, then merge adjacent free ranges. -/
def coalesceRanges (l : List AddressRange) : List AddressRange :=
  mergeAdjacent (sortRanges l)

/-- The range-scanning loop of `DeallocateAddress` (lines 152-162): find the
allocated range recorded for this address and mark it free.  `none` means
the "allocation inconsistency" path (line 164). -/
def markFreeGo (addr size : Nat) : List AddressRange → Option (List AddressRange)
  | [] => none
  | r :: rest =>
    if r.start = addr ∧ r.size = size ∧ r.isFree = false then
      some (⟨r.start, r.size, true⟩ :: rest)
    else
      match markFreeGo addr size rest with
      | none => none
      | some l => some (r :: l)

/-- Embedding of `VirtualAddressAllocator::DeallocateAddress`
(lines 135-166).  Note that the entry is erased from `allocations_`
(line 150) before the range scan, so even the inconsistency path mutates
the allocation table — but the path relevant to the spec's unknown-address
claim is the early `allocations_.find == end` return (lines 142-147), which
changes nothing. -/
def deallocateAddress (s : AllocatorState) (addr : Nat) : Bool × AllocatorState :=
  if addr = 0 then (false, s)
  else
    match lookupA addr s.allocations with
    | none => (false, s)
    | some size =>
      let allocs := eraseA addr s.allocations
      match markFreeGo addr size s.ranges with
      | some rs => (true, { s with ranges := coalesceRanges rs, allocations := allocs })
      | none => (false, { s with allocations := allocs })

/-! ### Range-list well-formedness

The data-model invariant of spec §3 for address ranges: pairwise disjoint,
sorted by start, contiguously covering the pool end-to-end, and no two
adjacent free ranges. -/

def rangesDisjoint2 (a b : AddressRange) : Bool :=
  a.start + a.size ≤ b.start || b.start + b.size ≤ a.start

def pairwiseDisjoint : List AddressRange → Bool
  | [] => true
  | r :: rest => rest.all (rangesDisjoint2 r) && pairwiseDisjoint rest

def sortedByStart : List AddressRange → Bool
  | [] => true
  | [_] => true
  | r1 :: r2 :: rest => r1.start < r2.start && sortedByStart (r2 :: rest)

/-- The ranges tile `[pos, pos + total)` contiguously in list order. -/
def coversFrom (pos : Nat) : List AddressRange → Nat → Bool
  | [], total => total = 0
  | r :: rest, total =>
    r.start = pos && r.size ≤ total && coversFrom (pos + r.size) rest (total - r.size)

def noAdjacentFree : List AddressRange → Bool
  | [] => true
  | [_] => true
  | r1 :: r2 :: rest => !(r1.isFree && r2.isFree) && noAdjacentFree (r2 :: rest)

/-- The full §3 invariant for a pool's range list. -/
def poolWellFormed (s : AllocatorState) : Bool :=
  pairwiseDisjoint s.ranges && sortedByStart s.ranges &&
    coversFrom s.baseAddress s.ranges s.poolSize && noAdjacentFree s.ranges

/-! ## Placed memory mapper

Embedding of `MemoryMapper`
(src/src/extensions/map_memory_placed/memory_mapper.cpp).  The real
driver's `vkMapMemory`/`vkUnmapMemory` and the `mmap`/`mprotect` redirection
are oracles in `MapperEnv`.  `VkResult` is restricted to the codes the
mapper produces or propagates. -/

inductive VkResult where
  | success
  | errorInitializationFailed
  | errorMemoryMapFailed
deriving DecidableEq, Repr

/-- Mirrors `struct MappingInfo` (memory_mapper.hpp). -/
structure MappingInfo where
  memory : Nat
  offset : Nat
  size : Nat
  maliAddress : Nat
  virtualAddress : Nat
  isPlaced : Bool
deriving DecidableEq, Repr

/-- The mapper's `mappings_` table. -/
structure MapperState where
  mappings : List (Nat × MappingInfo)
deriving DecidableEq, Repr

/-- Oracles for the mapper's external collaborators.  `driverMapResult` and
`driverMapAddress` abstract the result code and mapped address of
`mali_map_memory_`; `redirectOk` abstracts the success of the
`mmap(MAP_FIXED)`/`mprotect` sequence in `SetupMemoryRedirection`;
`hasAllocator` is whether `address_allocator_` is non-null. -/
structure MapperEnv where
  driverMapResult : Nat → VkResult
  driverMapAddress : Nat → Nat
  redirectOk : Nat → Nat → Nat → Bool
  hasAllocator : Bool

/-- Embedding of `MemoryMapper::SetupMemoryRedirection` (lines 159-185):
nothing to do when the driver address already equals the target. -/
def setupMemoryRedirection (env : MapperEnv) (maliAddr virtAddr size : Nat) : Bool :=
  if maliAddr = virtAddr then true else env.redirectOk maliAddr virtAddr size

/-- Everything a `MapMemory` call returns or mutates: the result code, the
address written through `ppMappedAddress`, the new mapper and allocator
states, and how many times the driver-level unmap was invoked during the
call (the rollback path calls it once). -/
structure MapOutcome where
  result : VkResult
  address : Option Nat
  mapper : MapperState
  alloc : AllocatorState
  driverUnmaps : Nat
deriving DecidableEq, Repr

/-- Embedding of `MemoryMapper::MapMemory` (lines 38-105).  The
`ppMappedAddress` out-parameter is modelled by the `address` field of the
outcome (the null-pointer guard at line 40 concerns the caller's pointer,
not tracked state, and is outside the embedding).  Paths:

* already mapped (lines 46-50): succeed with the recorded address, no
  state change;
* driver map fails or returns null (lines 52-62): propagate, no change;
* preferred address present and allocator configured (lines 67-81):
  reserve exactly the preferred address; on reservation success set up
  redirection, rolling back reservation and driver mapping if that fails
  (lines 74-78); on reservation failure fall back to the driver address;
* no preferred address but allocator configured (lines 82-95): same with
  an arbitrary-placement reservation (`AllocateAddress(size)`, default
  alignment 4096);
* finally record the mapping (line 97). -/
def mapMemory (env : MapperEnv) (ms : MapperState) (al : AllocatorState)
    (memory offset size : Nat) (preferred : Option Nat) : MapOutcome :=
  match lookupA memory ms.mappings with
  | some m => ⟨.success, some m.virtualAddress, ms, al, 0⟩
  | none =>
    let r := env.driverMapResult memory
    if r ≠ .success then ⟨r, none, ms, al, 0⟩
    else
      let maliAddr := env.driverMapAddress memory
      if maliAddr = 0 then ⟨.errorMemoryMapFailed, none, ms, al, 0⟩
      else
        match preferred with
        | some pa =>
          if env.hasAllocator then
            let out := allocateSpecificAddress al pa size
            if out.1 = some pa then
              if setupMemoryRedirection env maliAddr pa size then
                ⟨.success, some pa,
                  ⟨upsertA memory ⟨memory, offset, size, maliAddr, pa, true⟩ ms.mappings⟩,
                  out.2, 0⟩
              else
                ⟨.errorMemoryMapFailed, none, ms, (deallocateAddress out.2 pa).2, 1⟩
            else
              ⟨.success, some maliAddr,
                ⟨upsertA memory ⟨memory, offset, size, maliAddr, maliAddr, false⟩ ms.mappings⟩,
                out.2, 0⟩
          else
            ⟨.success, some maliAddr,
              ⟨upsertA memory ⟨memory, offset, size, maliAddr, maliAddr, false⟩ ms.mappings⟩,
              al, 0⟩
        | none =>
          if env.hasAllocator then
            let out := allocateAddress al size 4096
            match out.1 with
            | some va =>
              if setupMemoryRedirection env maliAddr va size then
                ⟨.success, some va,
                  ⟨upsertA memory ⟨memory, offset, size, maliAddr, va, true⟩ ms.mappings⟩,
                  out.2, 0⟩
              else
                ⟨.errorMemoryMapFailed, none, ms, (deallocateAddress out.2 va).2, 1⟩
            | none =>
              ⟨.success, some maliAddr,
                ⟨upsertA memory ⟨memory, offset, size, maliAddr, maliAddr, false⟩ ms.mappings⟩,
                out.2, 0⟩
          else
            ⟨.success, some maliAddr,
              ⟨upsertA memory ⟨memory, offset, size, maliAddr, maliAddr, false⟩ ms.mappings⟩,
              al, 0⟩

/-- Outcome of an `UnmapMemory` call. -/
structure UnmapOutcome where
  result : VkResult
  mapper : MapperState
  alloc : AllocatorState
  driverUnmaps : Nat
deriving DecidableEq, Repr

/-- Embedding of `MemoryMapper::UnmapMemory` (lines 107-130): not-mapped is
a warned no-op returning success (lines 110-114); a placed mapping tears
down the redirection and releases the reservation (lines 118-123); finally
the driver unmap is called and the record erased. -/
def unmapMemory (env : MapperEnv) (ms : MapperState) (al : AllocatorState)
    (memory : Nat) : UnmapOutcome :=
  match lookupA memory ms.mappings with
  | none => ⟨.success, ms, al, 0⟩
  | some m =>
    let al1 := if m.isPlaced = true ∧ env.hasAllocator = true
      then (deallocateAddress al m.virtualAddress).2 else al
    ⟨.success, ⟨eraseA memory ms.mappings⟩, al1, 1⟩

/-- A call in a map/unmap call sequence. -/
inductive MapperOp where
  | map (memory offset size : Nat) (preferred : Option Nat)
  | unmap (memory : Nat)

/-- State transition of one mapper call (results discarded). -/
def mapperStep (env : MapperEnv) (st : MapperState × AllocatorState) (op : MapperOp) :
    MapperState × AllocatorState :=
  match op with
  | .map m o sz p =>
    let out := mapMemory env st.1 st.2 m o sz p
    (out.mapper, out.alloc)
  | .unmap m =>
    let out := unmapMemory env st.1 st.2 m
    (out.mapper, out.alloc)

/-- A sequence of mapper calls starting from an empty mapping table. -/
def runMapper (env : MapperEnv) (al : AllocatorState) (ops : List MapperOp) :
    MapperState × AllocatorState :=
  ops.foldl (mapperStep env) (⟨[]⟩, al)

/-! ## Instance lifecycle and the destroy request

The repository's destroy-request handler is `internal_vkDestroyInstance`
(src/src/core/mali_wrapper_icd.cpp lines 265-300): a null instance
returns immediately; an instance absent from `managed_instances` is a
warned no-op (lines 278-282); otherwise the driver-level
`vkDestroyInstance` is called when the driver resolves one (lines
285-295) and the instance is erased from `managed_instances`
unconditionally (line 298).  The function consults no reference count and
no marked-for-destruction flag — neither exists anywhere under src/ — so
the teardown is immediate and unconditional for a managed instance.

The reference-count bookkeeping the surface code calls
(`add_instance_reference` / `remove_instance_reference`, declared in
src/src/core/wsi_manager.hpp lines 13-15) has no defining translation
unit under src/; its counting below is modelled from the spec (±1 on a
tracked instance, no-op otherwise).  Whatever those functions do, they
cannot influence `internal_vkDestroyInstance`, which never reads the
count. -/

inductive InstOp where
  | addRef
  | removeRef
  | requestDestroy
deriving DecidableEq, Repr

/-- Per-instance lifecycle state: whether the handle is in
`managed_instances`, the (spec-modelled) reference count, and how many
driver-level destroys have been performed for it. -/
structure InstState where
  managed : Bool
  refCount : Int
  destroys : Nat
deriving DecidableEq, Repr

/-- Whether the driver resolves `vkDestroyInstance`
(mali_wrapper_icd.cpp lines 285-295: the erase happens either way; the
driver-level destroy only when the resolver returns one). -/
structure InstEnv where
  driverDestroyAvail : Bool
deriving DecidableEq, Repr

/-- State right after a successful `internal_vkCreateInstance`: inserted
into `managed_instances` (mali_wrapper_icd.cpp line 256); reference count
1 as spec §4.1 `RegisterInstance` prescribes for the modelled counter. -/
def instStart : InstState := ⟨true, 1, 0⟩

/-- Embedding of `internal_vkDestroyInstance`
(mali_wrapper_icd.cpp lines 265-300) for one tracked instance: an
unmanaged instance is a warned no-op; a managed one has the driver-level
destroy performed (when available) and is erased — immediately, with no
reference-count or mark check of any kind. -/
def instDestroy (env : InstEnv) (s : InstState) : InstState :=
  if s.managed = false then s
  else ⟨false, s.refCount,
    s.destroys + (if env.driverDestroyAvail = true then 1 else 0)⟩

/-- One lifecycle call on a single tracked instance.  `addRef` and
`removeRef` are modelled from the spec (the defining code is absent from
src/); `requestDestroy` is the source's `internal_vkDestroyInstance`. -/
def instStep (env : InstEnv) (s : InstState) (op : InstOp) : InstState :=
  match op with
  | .addRef => if s.managed = true then { s with refCount := s.refCount + 1 } else s
  | .removeRef => if s.managed = true then { s with refCount := s.refCount - 1 } else s
  | .requestDestroy => instDestroy env s

/-- A sequence of lifecycle calls applied to a freshly created
instance. -/
def instRun (env : InstEnv) (ops : List InstOp) : InstState :=
  ops.foldl (instStep env) instStart

/-! ## Substring matching

Embedding of the C `strstr`-based checks at mali_wrapper_icd.cpp line 559. -/

def charsBeginWith : List Char → List Char → Bool
  | [], _ => true
  | _ :: _, [] => false
  | p :: ps, c :: cs => p == c && charsBeginWith ps cs

def charsHaveSub (pat : List Char) : List Char → Bool
  | [] => charsBeginWith pat []
  | c :: cs => charsBeginWith pat (c :: cs) || charsHaveSub pat cs

/-- `strstrB s pat = true` iff `pat` occurs as a substring of `s`
(`strstr(s, pat) != nullptr`). -/
def strstrB (s pat : String) : Bool := charsHaveSub pat.toList s.toList

/-! ## Function-resolution router (the ICD entry points)

Embedding of the routing logic of src/src/core/mali_wrapper_icd.cpp.
The `wsi_functions` table (lines 26-82) is transcribed verbatim. -/

def wsiFunctionNames : List String :=
  [ "vkCreateXlibSurfaceKHR",
    "vkCreateXcbSurfaceKHR",
    "vkCreateWaylandSurfaceKHR",
    "vkCreateDisplaySurfaceKHR",
    "vkCreateHeadlessSurfaceEXT",
    "vkDestroySurfaceKHR",
    "vkGetPhysicalDeviceSurfaceSupportKHR",
    "vkGetPhysicalDeviceSurfaceCapabilitiesKHR",
    "vkGetPhysicalDeviceSurfaceCapabilities2KHR",
    "vkGetPhysicalDeviceSurfaceFormatsKHR",
    "vkGetPhysicalDeviceSurfaceFormats2KHR",
    "vkGetPhysicalDeviceSurfacePresentModesKHR",
    "vkCreateSwapchainKHR",
    "vkCreateSharedSwapchainsKHR",
    "vkDestroySwapchainKHR",
    "vkGetSwapchainImagesKHR",
    "vkAcquireNextImageKHR",
    "vkAcquireNextImage2KHR",
    "vkQueuePresentKHR",
    "vkGetSwapchainStatusKHR",
    "vkReleaseSwapchainImagesEXT",
    "vkGetPhysicalDeviceDisplayPropertiesKHR",
    "vkGetPhysicalDeviceDisplayProperties2KHR",
    "vkGetPhysicalDeviceDisplayPlanePropertiesKHR",
    "vkGetPhysicalDeviceDisplayPlaneProperties2KHR",
    "vkGetDisplayPlaneSupportedDisplaysKHR",
    "vkGetDisplayModePropertiesKHR",
    "vkGetDisplayModeProperties2KHR",
    "vkCreateDisplayModeKHR",
    "vkGetDisplayPlaneCapabilitiesKHR",
    "vkGetDisplayPlaneCapabilities2KHR",
    "vkGetSwapchainTimingPropertiesEXT",
    "vkGetSwapchainTimeDomainPropertiesEXT",
    "vkGetPastPresentationTimingEXT",
    "vkSetSwapchainPresentTimingQueueSizeEXT",
    "vkGetPhysicalDeviceWaylandPresentationSupportKHR",
    "vkGetPhysicalDeviceXlibPresentationSupportKHR",
    "vkGetPhysicalDeviceXcbPresentationSupportKHR" ]

/-- Embedding of `IsWSIFunction` (mali_wrapper_icd.cpp lines 84-86):
`wsi_functions.find(name) != wsi_functions.end()`. -/
def isWSIFunction (name : String) : Bool := decide (name ∈ wsiFunctionNames)

/-- Environment of the routers: availability and lookup results of the WSI
layer and the real driver.  `managed` is the `managed_instances` set in
iteration order (`begin()` is the head).  `maliGipaFn i n` abstracts
whether `mali_proc_addr(i, n)` returns a non-null pointer; `maliDevFn d n`
abstracts whether the driver's device resolver returns non-null for
`(d, n)`; `wsiDlsymFn n` abstracts `dlsym(wsi_lib, "wsi_layer_" + n)`. -/
structure IcdEnv where
  wsiGipaAvail : Bool
  wsiGipaFn : String → Bool
  wsiLib : Bool
  wsiDlsymFn : String → Bool
  maliGipaAvail : Bool
  maliGipaFn : Option Nat → String → Bool
  maliDevFn : Nat → String → Bool
  managed : List Nat

/-- What a resolution request produced.  `wrapper fn` is one of the
wrapper's own statically linked functions (identified by name), `wsiPtr`
a pointer obtained from the WSI layer, `wsiStub` the
`VK_ERROR_FEATURE_NOT_PRESENT` stub, `mali`/`maliDev` a pointer obtained
from the real driver (recording which instance formed the forwarding
call), and `nullPtr` a null function pointer. -/
inductive Routed where
  | wrapper (fn : String)
  | wsiPtr (fn : String)
  | wsiStub
  | mali (viaInst : Option Nat) (fn : String)
  | maliDev (viaInst : Nat) (fn : String)
  | nullPtr
deriving DecidableEq, Repr

/-- Embedding of `internal_vkGetInstanceProcAddr`
(mali_wrapper_icd.cpp lines 389-465), the instance-level resolution path:
wrapper-intrinsic names first (lines 399-424), then WSI routing with
fall-through on failure (lines 427-448), then forwarding to the driver
with the `instance ? instance : *managed_instances.begin()` fallback
(lines 451-461). -/
def igpaRoute (env : IcdEnv) (inst : Option Nat) (name : String) : Routed :=
  if name = "vkGetInstanceProcAddr" then .wrapper "internal_vkGetInstanceProcAddr"
  else if name = "vkCreateInstance" then .wrapper "internal_vkCreateInstance"
  else if name = "vkDestroyInstance" then .wrapper "internal_vkDestroyInstance"
  else if name = "vkEnumerateInstanceExtensionProperties" then
    .wrapper "internal_vkEnumerateInstanceExtensionProperties"
  else if name = "vkGetDeviceProcAddr" then .wrapper "internal_vkGetDeviceProcAddr"
  else if name = "vkCreateDevice" then .wrapper "internal_vkCreateDevice"
  else if isWSIFunction name && env.wsiGipaAvail && env.wsiGipaFn name then
    .wsiPtr name
  else if env.maliGipaAvail then
    let maliInstance : Option Nat :=
      match inst with
      | some i => some i
      | none => env.managed.head?
    if env.maliGipaFn maliInstance name then .mali maliInstance name else .nullPtr
  else .nullPtr

/-- Embedding of `internal_vkGetDeviceProcAddr`
(mali_wrapper_icd.cpp lines 467-581), the device-level resolution path:
the `vkCreateSwapchainKHR` wrapper special case (lines 481-485); WSI
names served via `dlsym` into the WSI layer, with the error stub when
absent (lines 488-549); the `vkGetDeviceProcAddr` special case that
always returns the wrapper's own resolver (lines 553-556); the
RayTracing/MeshTask refusal (lines 559-562); and finally forwarding
through the driver resolver obtained from `*managed_instances.begin()`
(lines 566-577).  The `GetCanonicalDevice` bookkeeping inside the WSI
branch only rewrites the device handle used for logging and the
`device_handle_map` cache; the returned pointer does not depend on it. -/
def gdpaRoute (env : IcdEnv) (device : Nat) (name : String) : Routed :=
  if name = "vkCreateSwapchainKHR" then .wrapper "wrapper_vkCreateSwapchainKHR"
  else if isWSIFunction name then
    if env.wsiLib && env.wsiDlsymFn name then .wsiPtr name else .wsiStub
  else if name = "vkGetDeviceProcAddr" then .wrapper "internal_vkGetDeviceProcAddr"
  else if strstrB name "RayTracing" || strstrB name "MeshTask" then .nullPtr
  else if env.maliGipaAvail then
    match env.managed with
    | [] => .nullPtr
    | i :: _ =>
      if env.maliGipaFn (some i) "vkGetDeviceProcAddr" then
        if env.maliDevFn device name then .maliDev i name else .nullPtr
      else .nullPtr
  else .nullPtr

/-- Embedding of `filtered_mali_get_device_proc_addr`
(mali_wrapper_icd.cpp lines 636-679), the device-resolution link handed to
the WSI layer chain: WSI names filtered to null, `vkGetDeviceProcAddr`
replaced by the wrapper's resolver, everything else forwarded via
`*managed_instances.begin()`. -/
def filteredGdpaRoute (env : IcdEnv) (device : Nat) (name : String) : Routed :=
  if isWSIFunction name then .nullPtr
  else if name = "vkGetDeviceProcAddr" then .wrapper "internal_vkGetDeviceProcAddr"
  else if env.maliGipaAvail then
    match env.managed with
    | [] => .nullPtr
    | i :: _ =>
      if env.maliGipaFn (some i) "vkGetDeviceProcAddr" then
        if env.maliDevFn device name then .maliDev i name else .nullPtr
      else .nullPtr
  else .nullPtr

/-- Embedding of `filtered_mali_get_instance_proc_addr`
(mali_wrapper_icd.cpp lines 160-195), the instance-resolution link handed
to the WSI layer chain (lines 229 and 730): WSI names filtered to null
(lines 170-173), `vkCreateDevice` replaced by the wrapper's
`mali_driver_create_device` (lines 176-179), and everything else —
including `vkGetDeviceProcAddr`, for which this function has no guard —
forwarded to the driver's `vkGetInstanceProcAddr` with the given instance
(lines 182-191). -/
def filteredGipaRoute (env : IcdEnv) (inst : Option Nat) (name : String) : Routed :=
  if isWSIFunction name then .nullPtr
  else if name = "vkCreateDevice" then .wrapper "mali_driver_create_device"
  else if env.maliGipaAvail then
    if env.maliGipaFn inst name then .mali inst name else .nullPtr
  else .nullPtr

/-! ## The dispatch-table router

Embedding of `VulkanDispatch::GetDeviceProcAddr`
(src/src/core/vulkan_dispatch.cpp lines 61-103) together with
`MaliLoader::GetDeviceProcAddr(VkInstance)`
(src/src/core/mali_loader.cpp lines 120-126). -/

/-- The dispatch tables of `VulkanDispatch`: keys of
`instance_dispatch_tables_`, per-device lists of cached function names
standing for `device_dispatch_tables_`, and the `device_to_instance_`
association. -/
structure DispatchState where
  instanceTables : List Nat
  deviceTables : List (Nat × List String)
  deviceToInstance : List (Nat × Nat)
deriving DecidableEq, Repr

/-- Oracles for the dispatch router: the extension registry's lookup, the
driver's load state, whether `MaliLoader` cached a process-wide
`vkGetDeviceProcAddr` at load time (`get_device_proc_addr_`), whether the
driver's `vkGetInstanceProcAddr` is present, whether deriving the device
resolver through a given instance succeeds, and the driver device-level
lookup itself. -/
structure DispatchEnv where
  extensionFn : String → Bool
  maliLoaded : Bool
  maliGlobalGdpa : Bool
  maliGipaPresent : Bool
  maliDerivedGdpa : Nat → Bool
  maliDevFn : Nat → String → Bool

/-- What `VulkanDispatch::GetDeviceProcAddr` produced. -/
inductive DispatchResult where
  | cachedFn (fn : String)
  | extensionPtr (fn : String)
  | maliPtr (viaInst : Option Nat) (fn : String)
  | nullPtr
deriving DecidableEq, Repr

/-- Whether the device cache holds `name` for `device`
(`GetCachedDeviceFunction`, vulkan_dispatch.cpp lines 159-168). -/
def cachedHit (s : DispatchState) (device : Nat) (name : String) : Bool :=
  match lookupA device s.deviceTables with
  | none => false
  | some names => names.contains name

/-- `CacheDeviceFunction` (vulkan_dispatch.cpp lines 174-176):
`device_dispatch_tables_[device][name] = func`. -/
def cacheAdd (s : DispatchState) (device : Nat) (name : String) : DispatchState :=
  match lookupA device s.deviceTables with
  | none => { s with deviceTables := upsertA device [name] s.deviceTables }
  | some names => { s with deviceTables := upsertA device (name :: names) s.deviceTables }

/-- Embedding of `MaliLoader::GetDeviceProcAddr(VkInstance)`
(mali_loader.cpp lines 120-126): when no process-wide resolver was cached,
derive one through the given instance — but only if an instance was
actually supplied; otherwise the null cached value is returned as-is.
The result is whether a resolver is available, together with the instance
it was derived through (`none` = the process-wide cached one). -/
def maliLoaderGdpa (env : DispatchEnv) (inst : Option Nat) : Bool × Option Nat :=
  if env.maliGlobalGdpa = false ∧ env.maliGipaPresent = true ∧ inst ≠ none then
    match inst with
    | some i => (env.maliDerivedGdpa i, some i)
    | none => (false, none)
  else (env.maliGlobalGdpa, none)

/-- Embedding of `VulkanDispatch::GetDeviceProcAddr`
(vulkan_dispatch.cpp lines 61-103): cached hit, then extension registry,
then forwarding to the driver using only the recorded
`device_to_instance_` association (lines 83-94) — a device with no
recorded association forwards with a null instance. -/
def dispatchGdpa (env : DispatchEnv) (s : DispatchState) (device : Nat) (name : String) :
    DispatchResult × DispatchState :=
  if cachedHit s device name then (.cachedFn name, s)
  else if env.extensionFn name then (.extensionPtr name, cacheAdd s device name)
  else if env.maliLoaded = false then (.nullPtr, s)
  else
    let devInst := lookupA device s.deviceToInstance
    let resolver := maliLoaderGdpa env devInst
    if resolver.1 = false then (.nullPtr, s)
    else if env.maliDevFn device name then (.maliPtr resolver.2 name, cacheAdd s device name)
    else (.nullPtr, s)

/-! ## Concrete scenario environments -/

/-- Driver maps every memory object successfully at address 500000; the
OS-level redirection (`mmap(MAP_FIXED)`) always fails; an allocator is
configured. -/
def envRedirectFail : MapperEnv :=
  ⟨fun _ => .success, fun _ => 500000, fun _ _ _ => false, true⟩

/-- Driver maps every memory object successfully at address 500000; the
OS-level redirection always succeeds; an allocator is configured. -/
def envRedirectOk : MapperEnv :=
  ⟨fun _ => .success, fun _ => 500000, fun _ _ _ => true, true⟩

/-- Router environment: the WSI layer is unavailable, the driver is loaded
and resolves every name, and no instance has been created yet. -/
def icdEnvMaliAll : IcdEnv :=
  ⟨false, fun _ => false, false, fun _ => false, true, fun _ _ => true, fun _ _ => true, []⟩

/-- Dispatch environment: no extension intercepts, the driver is loaded
but did not export `vkGetDeviceProcAddr` directly (mali_loader.cpp
lines 80-83 log this case and leave the cached resolver null), deriving a
device resolver through any instance would succeed, and the driver
resolves every device-level name. -/
def dispatchEnvNoGlobal : DispatchEnv :=
  ⟨fun _ => false, true, false, true, fun _ => true, fun _ _ => true⟩

/-- The lifecycle invariant tying the destroy counter to erasure from the
managed set: a managed instance has had no driver-level destroy; an
erased one has had exactly one when the driver resolver was available and
none otherwise. -/
def instOk (env : InstEnv) (s : InstState) : Prop :=
  (s.managed = true → s.destroys = 0) ∧
  (s.managed = false → s.destroys = (if env.driverDestroyAvail = true then 1 else 0))

/-! ## Helper lemmas -/

theorem mem_keysOf_upsertA {α : Type} (k x : Nat) (v : α) (l : List (Nat × α)) :
    x ∈ keysOf (upsertA k v l) → x ∈ keysOf l ∨ x = k := by
  induction l with
  | nil => intro h; simp [upsertA, keysOf] at h; exact Or.inr h
  | cons hd tl ih =>
    rcases hd with ⟨k0, v0⟩
    intro h
    by_cases hk : k0 = k
    · simp [upsertA, hk, keysOf] at h ⊢
      rcases h with h | h
      · exact Or.inl (Or.inl h)
      · exact Or.inl (Or.inr h)
    · simp [upsertA, hk, keysOf] at h ⊢
      rcases h with h | h
      · exact Or.inl (Or.inl h)
      · rcases ih (by simpa [keysOf] using h) with h2 | h2
        · exact Or.inl (Or.inr (by simpa [keysOf] using h2))
        · exact Or.inr h2

theorem keysOf_upsertA_nodup {α : Type} (k : Nat) (v : α) (l : List (Nat × α))
    (h : (keysOf l).Nodup) : (keysOf (upsertA k v l)).Nodup := by
  induction l with
  | nil => simp [upsertA, keysOf]
  | cons hd tl ih =>
    rcases hd with ⟨k0, v0⟩
    by_cases hk : k0 = k
    · simpa [upsertA, hk, keysOf] using h
    · simp only [keysOf, List.map_cons, List.nodup_cons] at h
      simp only [upsertA, if_neg hk, keysOf, List.map_cons, List.nodup_cons]
      refine ⟨?_, ih h.2⟩
      intro hmem
      rcases mem_keysOf_upsertA k k0 v tl hmem with h2 | h2
      · exact h.1 h2
      · exact hk h2

theorem keysOf_eraseA_sublist {α : Type} (k : Nat) (l : List (Nat × α)) :
    (keysOf (eraseA k l)).Sublist (keysOf l) := by
  induction l with
  | nil => simp [eraseA, keysOf]
  | cons hd tl ih =>
    rcases hd with ⟨k0, v0⟩
    by_cases hk : k0 = k
    · simp only [eraseA, if_pos hk, keysOf, List.map_cons]
      exact List.Sublist.cons k0 (List.Sublist.refl _)
    · simp only [eraseA, if_neg hk, keysOf, List.map_cons]
      exact (ih).cons₂ k0

theorem keysOf_eraseA_nodup {α : Type} (k : Nat) (l : List (Nat × α))
    (h : (keysOf l).Nodup) : (keysOf (eraseA k l)).Nodup :=
  (keysOf_eraseA_sublist k l).nodup h

/-- No entry of the WSI routing table matches the unstable-feature
patterns. -/
theorem wsiNames_no_unstable : ∀ s ∈ wsiFunctionNames,
    strstrB s "RayTracing" = false ∧ strstrB s "MeshTask" = false := by decide

/-- Every `MapMemory` call leaves the mapping table unchanged or updates
the entry for the mapped memory object. -/
theorem mapMemory_mapper_cases (env : MapperEnv) (ms : MapperState) (al : AllocatorState)
    (m o sz : Nat) (p : Option Nat) :
    (mapMemory env ms al m o sz p).mapper = ms ∨
      ∃ info, (mapMemory env ms al m o sz p).mapper = ⟨upsertA m info ms.mappings⟩ := by
  simp only [mapMemory]
  repeat' split
  all_goals first
    | exact Or.inl rfl
    | exact Or.inr ⟨_, rfl⟩

/-- Every `UnmapMemory` call leaves the mapping table unchanged or erases
the entry for the unmapped memory object. -/
theorem unmapMemory_mapper_cases (env : MapperEnv) (ms : MapperState) (al : AllocatorState)
    (m : Nat) :
    (unmapMemory env ms al m).mapper = ms ∨
      (unmapMemory env ms al m).mapper = ⟨eraseA m ms.mappings⟩ := by
  simp only [unmapMemory]
  repeat' split
  all_goals first
    | exact Or.inl rfl
    | exact Or.inr rfl

/-- When the requested end address does not wrap (`p + sz < 2^64`), the
`AllocateSpecificAddress` loop finds nothing if no free range wholly
contains the requested span: the wrapped comparison implies the true one
because a wrapped range end can only shrink. -/
theorem allocSpecGo_none_of_no_fit (p sz : Nat) (l : List AddressRange)
    (hp : p + sz < ptrMod)
    (H : ∀ r ∈ l, ¬(r.isFree = true ∧ r.start ≤ p ∧ p + sz ≤ r.start + r.size)) :
    allocSpecGo p sz l = none := by
  induction l with
  | nil => rfl
  | cons r rest ih =>
    have hneg : ¬(r.isFree = true ∧ r.start ≤ p ∧
        (p + sz) % ptrMod ≤ (r.start + r.size) % ptrMod) := by
      intro hc
      apply H r (List.mem_cons_self r rest)
      refine ⟨hc.1, hc.2.1, ?_⟩
      have h1 := hc.2.2
      rw [Nat.mod_eq_of_lt hp] at h1
      exact le_trans h1 (Nat.mod_le _ _)
    unfold allocSpecGo
    rw [if_neg hneg]
    rw [ih (fun x hx => H x (List.mem_cons_of_mem r hx))]

theorem instStep_ok {env : InstEnv} {s : InstState} (h : instOk env s) (op : InstOp) :
    instOk env (instStep env s op) := by
  cases op with
  | addRef =>
    by_cases hm : s.managed = true
    · simpa [instStep, hm, instOk] using h
    · simpa [instStep, hm] using h
  | removeRef =>
    by_cases hm : s.managed = true
    · simpa [instStep, hm, instOk] using h
    · simpa [instStep, hm] using h
  | requestDestroy =>
    by_cases hm : s.managed = false
    · simpa [instStep, instDestroy, hm] using h
    · have hm2 : s.managed = true := by
        cases hv : s.managed
        · exact absurd hv hm
        · rfl
      constructor
      · intro hx
        simp [instStep, instDestroy, hm2] at hx
      · intro _
        simp [instStep, instDestroy, hm2, h.1 hm2]

theorem instFold_ok (env : InstEnv) (ops : List InstOp) :
    ∀ s : InstState, instOk env s → instOk env (ops.foldl (instStep env) s) := by
  induction ops with
  | nil => intro s h; exact h
  | cons op rest ih => intro s h; exact ih _ (instStep_ok h op)

theorem instRun_ok (env : InstEnv) (ops : List InstOp) : instOk env (instRun env ops) :=
  instFold_ok env ops instStart ⟨fun _ => rfl, fun h => by simp [instStart] at h⟩

/-! ## Claim theorems -/

/-- Counterexample to claim C1 as stated: starting from a freshly created
instance with an extra reference added, a single destroy request performs
the driver-level destroy immediately — the final state shows one destroy
with the reference count still at 2, which is not ≤ 0 (and no
marked-for-destruction state exists in the code at all), refuting "the
driver-level destroy is performed ... only in a state where the instance
is marked for destruction and its reference count is ≤ 0". -/
theorem c1_destroy_fires_with_reference_outstanding :
    instRun ⟨true⟩ [.addRef, .requestDestroy] = ⟨false, 2, 1⟩ ∧
    ¬((2 : Int) ≤ 0) :=
  ⟨by decide, by decide⟩

/-- Claim C1 (amended).  For every sequence of `AddReference`/
`RemoveReference`/`RequestDestroy` calls on one tracked instance, the
driver-level destroy is performed at most once; when the driver resolves
`vkDestroyInstance` it is performed exactly once precisely when the
instance has been erased from the managed set; every step that performs
it is a destroy request on a still-managed instance (which it erases) —
the destroy is immediate and unconditional, with no reference-count or
mark gate; and both call orders (destroy request then release, release
then destroy request) trigger exactly one teardown, the teardown
happening at the destroy request itself. -/
theorem c1_destroy_request_immediate :
    (∀ (env : InstEnv) (ops : List InstOp), (instRun env ops).destroys ≤ 1) ∧
    (∀ (env : InstEnv) (ops : List InstOp), env.driverDestroyAvail = true →
        ((instRun env ops).destroys = 1 ↔ (instRun env ops).managed = false)) ∧
    (∀ (env : InstEnv) (s : InstState) (op : InstOp),
        s.destroys < (instStep env s op).destroys →
          op = .requestDestroy ∧ s.managed = true ∧
            (instStep env s op).managed = false) ∧
    (instRun ⟨true⟩ [.requestDestroy, .removeRef]).destroys = 1 ∧
    (instRun ⟨true⟩ [.removeRef, .requestDestroy]).destroys = 1 := by
  refine ⟨?_, ?_, ?_, by decide, by decide⟩
  · intro env ops
    rcases instRun_ok env ops with ⟨h1, h2⟩
    cases hv : (instRun env ops).managed
    · have h3 := h2 hv
      cases ha : env.driverDestroyAvail <;> simp [ha] at h3 <;> simp [h3]
    · simp [h1 hv]
  · intro env ops ha
    rcases instRun_ok env ops with ⟨h1, h2⟩
    constructor
    · intro hone
      cases hv : (instRun env ops).managed
      · rfl
      · rw [h1 hv] at hone
        exact absurd hone (by decide)
    · intro hv
      simp [h2 hv, ha]
  · intro env s op hlt
    cases op with
    | addRef =>
      by_cases hm : s.managed = true
      · simp [instStep, hm] at hlt
      · simp [instStep, hm] at hlt
    | removeRef =>
      by_cases hm : s.managed = true
      · simp [instStep, hm] at hlt
      · simp [instStep, hm] at hlt
    | requestDestroy =>
      by_cases hm : s.managed = false
      · simp [instStep, instDestroy, hm] at hlt
      · have hm2 : s.managed = true := by
          cases hv : s.managed
          · exact absurd hv hm
          · rfl
        exact ⟨rfl, hm2, by simp [instStep, instDestroy, hm2]⟩

/-- Witness for amended C1: after a plain add-reference the count of
driver destroys is 1 exactly when the instance is gone (here: neither),
and a destroy request on a managed instance at count 1 is the step that
erases it. -/
theorem c1_destroy_request_immediate_witness :
    ((instRun ⟨true⟩ [.addRef]).destroys = 1 ↔ (instRun ⟨true⟩ [.addRef]).managed = false) ∧
    (InstOp.requestDestroy = InstOp.requestDestroy ∧
      (⟨true, 1, 0⟩ : InstState).managed = true ∧
      (instStep ⟨true⟩ ⟨true, 1, 0⟩ .requestDestroy).managed = false) :=
  ⟨c1_destroy_request_immediate.2.1 ⟨true⟩ [.addRef] (by decide),
   c1_destroy_request_immediate.2.2.1 ⟨true⟩ ⟨true, 1, 0⟩ .requestDestroy (by decide)⟩

/-- Claim C2 (code-bug evidence).  A single `AllocateSpecificAddress` call
on a freshly constructed pool, placed 4 bytes past the start of the free
range, leaves the range list `[(4100,16,used), (4096,65536,free),
(4116,65516,free)]`: the original free range is never shrunk because the
vector reference used for the write-back was invalidated by the fragment
insert, so the resulting ranges overlap, are unsorted, double-cover the
pool, and violate every clause of the §3 invariant. -/
theorem c2_allocator_invariant_violated_on_split :
    allocateSpecificAddress (freshPool 4096 65536) 4100 16 =
      (some 4100,
        ⟨4096, 65536,
          [⟨4100, 16, false⟩, ⟨4096, 65536, true⟩, ⟨4116, 65516, true⟩],
          [(4100, 16)]⟩) ∧
    pairwiseDisjoint
      (allocateSpecificAddress (freshPool 4096 65536) 4100 16).2.ranges = false ∧
    sortedByStart
      (allocateSpecificAddress (freshPool 4096 65536) 4100 16).2.ranges = false ∧
    poolWellFormed (allocateSpecificAddress (freshPool 4096 65536) 4100 16).2 = false ∧
    poolWellFormed (freshPool 4096 65536) = true := by
  exact ⟨by decide, by decide, by decide, by decide, by decide⟩

/-- Counterexample to claim C3 as stated ("regardless of the requested
size"): in a pool with `[4096, 4160)` allocated, requesting address 4200
with size 2^64 − 1 (`VK_WHOLE_SIZE`) succeeds and mutates the pool, even
though — as the third conjunct states — no free range truly contains the
requested span (which overlaps the allocated region): the 64-bit
end-address `preferred_start + size` wraps to 4199 and the containment
check at address_allocator.cpp line 100 passes. -/
theorem c3_wrapping_size_allocates_overlapping :
    (allocateSpecificAddress
        ⟨4096, 65536, [⟨4096, 64, false⟩, ⟨4160, 65472, true⟩], [(4096, 64)]⟩
        4200 (2 ^ 64 - 1)).1 = some 4200 ∧
    (allocateSpecificAddress
        ⟨4096, 65536, [⟨4096, 64, false⟩, ⟨4160, 65472, true⟩], [(4096, 64)]⟩
        4200 (2 ^ 64 - 1)).2 ≠
      ⟨4096, 65536, [⟨4096, 64, false⟩, ⟨4160, 65472, true⟩], [(4096, 64)]⟩ ∧
    ([⟨4096, 64, false⟩, ⟨4160, 65472, true⟩] : List AddressRange).all
        (fun r => !(r.isFree && decide (r.start ≤ 4200) &&
          decide (4200 + (2 ^ 64 - 1) ≤ r.start + r.size))) = true :=
  ⟨by decide, by decide, by decide⟩

/-- Claim C3 (amended).  For every requested address and size whose
64-bit end-address computation does not wrap (`address + size < 2^64`),
if no single free range entirely contains `[address, address + size)` —
in particular whenever the requested span overlaps allocated space in a
well-formed pool — `AllocateSpecificAddress` returns null and leaves the
range list and the allocation table exactly as they were.  (For wrapping
sizes such as `VK_WHOLE_SIZE` the wrapped comparison can pass and the
call succeeds, per the counterexample.) -/
theorem c3_allocate_exact_fails_unchanged (s : AllocatorState) (p sz : Nat)
    (hp : p + sz < ptrMod)
    (H : ∀ r ∈ s.ranges, ¬(r.isFree = true ∧ r.start ≤ p ∧ p + sz ≤ r.start + r.size)) :
    allocateSpecificAddress s p sz = (none, s) := by
  unfold allocateSpecificAddress
  split
  · rfl
  · rw [allocSpecGo_none_of_no_fit p sz s.ranges hp H]

/-- Witness for amended C3: in a pool with `[4096, 4160)` allocated,
requesting the overlapping span `[4100, 4108)` fails and changes
nothing. -/
theorem c3_allocate_exact_fails_unchanged_witness :
    allocateSpecificAddress
      ⟨4096, 65536, [⟨4096, 64, false⟩, ⟨4160, 65472, true⟩], [(4096, 64)]⟩ 4100 8 =
      (none, ⟨4096, 65536, [⟨4096, 64, false⟩, ⟨4160, 65472, true⟩], [(4096, 64)]⟩) :=
  c3_allocate_exact_fails_unchanged
    ⟨4096, 65536, [⟨4096, 64, false⟩, ⟨4160, 65472, true⟩], [(4096, 64)]⟩ 4100 8
    (by decide) (by decide)

/-- Claim C4 (code-bug evidence).  Mapping memory object 7 with preferred
address 4100 on a fresh pool, with the driver mapping succeeding at address
500000 and the OS-level redirection failing: the mapper does return the
failure code, retain no mapping record, release the reservation and call
the driver unmap once — but the allocate/release pair does not restore the
pool, which ends as `[(4096,65536,free),(4100,65532,free)]` instead of the
original single free range, because the reservation had already corrupted
the range list. -/
theorem c4_redirection_failure_rollback_incomplete :
    mapMemory envRedirectFail ⟨[]⟩ (freshPool 4096 65536) 7 0 16 (some 4100) =
      ⟨.errorMemoryMapFailed, none, ⟨[]⟩,
        ⟨4096, 65536, [⟨4096, 65536, true⟩, ⟨4100, 65532, true⟩], []⟩, 1⟩ ∧
    (mapMemory envRedirectFail ⟨[]⟩ (freshPool 4096 65536) 7 0 16 (some 4100)).alloc ≠
      freshPool 4096 65536 :=
  ⟨by decide, by decide⟩

/-- Claim C5 (code-bug evidence).  Mapping memory object 7 with preferred
address 4100 on a fresh pool (driver maps at 500000, redirection succeeds)
and then unmapping it returns the mapper's table to empty, but leaves the
allocator pool as `[(4096,65536,free),(4100,65532,free)]` — not the state
before the `MapMemory` call. -/
theorem c5_map_unmap_pool_not_restored :
    (mapMemory envRedirectOk ⟨[]⟩ (freshPool 4096 65536) 7 0 16 (some 4100)).result =
      .success ∧
    (mapMemory envRedirectOk ⟨[]⟩ (freshPool 4096 65536) 7 0 16 (some 4100)).address =
      some 4100 ∧
    unmapMemory envRedirectOk
        (mapMemory envRedirectOk ⟨[]⟩ (freshPool 4096 65536) 7 0 16 (some 4100)).mapper
        (mapMemory envRedirectOk ⟨[]⟩ (freshPool 4096 65536) 7 0 16 (some 4100)).alloc 7 =
      ⟨.success, ⟨[]⟩, ⟨4096, 65536, [⟨4096, 65536, true⟩, ⟨4100, 65532, true⟩], []⟩, 1⟩ ∧
    (⟨4096, 65536, [⟨4096, 65536, true⟩, ⟨4100, 65532, true⟩], []⟩ : AllocatorState) ≠
      freshPool 4096 65536 :=
  ⟨by decide, by decide, by decide, by decide⟩

/-- Counterexample to claim C6 as stated ("never the real driver's
resolver"): the filtered instance-level link handed to the WSI layer
chain, `filtered_mali_get_instance_proc_addr`
(mali_wrapper_icd.cpp lines 160-195), has no `vkGetDeviceProcAddr`
guard — it forwards the name to the driver's `vkGetInstanceProcAddr` and
returns the driver's own resolver when the driver provides one. -/
theorem c6_filtered_gipa_returns_driver_resolver :
    filteredGipaRoute icdEnvMaliAll (some 1) "vkGetDeviceProcAddr" =
      .mali (some 1) "vkGetDeviceProcAddr" ∧
    filteredGipaRoute icdEnvMaliAll (some 1) "vkGetDeviceProcAddr" ≠
      .wrapper "internal_vkGetDeviceProcAddr" :=
  ⟨by decide, by decide⟩

/-- Claim C6 (amended).  A request for `vkGetDeviceProcAddr` yields the
wrapper's own resolver on the application-facing instance-level path
(`internal_vkGetInstanceProcAddr`), on the device-level path
(`internal_vkGetDeviceProcAddr`), and on the filtered device-resolution
link handed to the WSI chain (`filtered_mali_get_device_proc_addr`),
whatever the environment, instance and device; the filtered
instance-resolution link (`filtered_mali_get_instance_proc_addr`) has no
such guard and forwards the request to the real driver, returning the
driver's resolver when the driver provides one and null otherwise. -/
theorem c6_resolver_wrapped_except_filtered_gipa :
    ∀ (env : IcdEnv) (inst : Option Nat) (device : Nat),
      igpaRoute env inst "vkGetDeviceProcAddr" =
        .wrapper "internal_vkGetDeviceProcAddr" ∧
      gdpaRoute env device "vkGetDeviceProcAddr" =
        .wrapper "internal_vkGetDeviceProcAddr" ∧
      filteredGdpaRoute env device "vkGetDeviceProcAddr" =
        .wrapper "internal_vkGetDeviceProcAddr" ∧
      (filteredGipaRoute env inst "vkGetDeviceProcAddr" =
          .mali inst "vkGetDeviceProcAddr" ∨
        filteredGipaRoute env inst "vkGetDeviceProcAddr" = .nullPtr) := by
  intro env inst device
  refine ⟨rfl, rfl, rfl, ?_⟩
  unfold filteredGipaRoute
  rw [if_neg ((by decide : ¬(isWSIFunction "vkGetDeviceProcAddr" = true)))]
  rw [if_neg ((by decide : ¬("vkGetDeviceProcAddr" = "vkCreateDevice")))]
  by_cases h1 : env.maliGipaAvail = true
  · rw [if_pos h1]
    by_cases h2 : env.maliGipaFn inst "vkGetDeviceProcAddr" = true
    · rw [if_pos h2]
      exact Or.inl rfl
    · rw [if_neg h2]
      exact Or.inr rfl
  · rw [if_neg h1]
    exact Or.inr rfl

/-- Counterexample to claim C7 as stated: on the instance-level resolution
path a name matching "RayTracing" is forwarded to the real driver (when
the driver resolves it), not refused — the unstable-name filter exists
only on the device-level path. -/
theorem c7_unstable_name_forwarded_on_instance_path :
    igpaRoute icdEnvMaliAll none "vkCreateRayTracingPipelinesKHR" =
      .mali none "vkCreateRayTracingPipelinesKHR" ∧
    strstrB "vkCreateRayTracingPipelinesKHR" "RayTracing" = true ∧
    igpaRoute icdEnvMaliAll none "vkCreateRayTracingPipelinesKHR" ≠ .nullPtr :=
  ⟨by decide, by decide, by decide⟩

/-- Claim C7 (amended).  On the device-level resolution path
(`internal_vkGetDeviceProcAddr`), every name containing "RayTracing" or
"MeshTask" is refused with a null pointer and never forwarded to the real
driver, whatever the environment and device. -/
theorem c7_unstable_names_refused_on_device_path (env : IcdEnv) (device : Nat)
    (name : String)
    (h : strstrB name "RayTracing" = true ∨ strstrB name "MeshTask" = true) :
    gdpaRoute env device name = .nullPtr := by
  have hswap : ¬(name = "vkCreateSwapchainKHR") := by rintro rfl; revert h; decide
  have hgd : ¬(name = "vkGetDeviceProcAddr") := by rintro rfl; revert h; decide
  have hwsi : isWSIFunction name = false := by
    cases hw : isWSIFunction name
    · rfl
    · exfalso
      have hmem : name ∈ wsiFunctionNames := of_decide_eq_true hw
      have hnone := wsiNames_no_unstable name hmem
      rcases h with h | h
      · rw [hnone.1] at h; exact Bool.false_ne_true h
      · rw [hnone.2] at h; exact Bool.false_ne_true h
  have hsub : (strstrB name "RayTracing" || strstrB name "MeshTask") = true := by
    rcases h with h | h <;> simp [h]
  unfold gdpaRoute
  rw [if_neg hswap, hwsi, if_neg Bool.false_ne_true, if_neg hgd, hsub, if_pos rfl]

/-- Witness for amended C7: "vkGetRayTracingShaderGroupHandlesKHR" is
refused on the device path even in an environment where the driver would
resolve it. -/
theorem c7_unstable_names_refused_on_device_path_witness :
    gdpaRoute icdEnvMaliAll 3 "vkGetRayTracingShaderGroupHandlesKHR" = .nullPtr :=
  c7_unstable_names_refused_on_device_path icdEnvMaliAll 3
    "vkGetRayTracingShaderGroupHandlesKHR" (Or.inl (by decide))

/-- Claim C8.  Starting from an empty mapping table, any sequence of
`MapMemory`/`UnmapMemory` calls keeps the mapping table's keys free of
duplicates — at most one active mapping per memory object — and a
`MapMemory` call on an already-mapped memory object returns success with
the previously recorded wrapper-exposed address, leaving the mapper and
the allocator untouched. -/
theorem c8_at_most_one_mapping_per_memory :
    (∀ (env : MapperEnv) (al : AllocatorState) (ops : List MapperOp),
        (keysOf (runMapper env al ops).1.mappings).Nodup) ∧
    (∀ (env : MapperEnv) (ms : MapperState) (al : AllocatorState)
        (m o sz : Nat) (p : Option Nat) (info : MappingInfo),
        lookupA m ms.mappings = some info →
          mapMemory env ms al m o sz p = ⟨.success, some info.virtualAddress, ms, al, 0⟩) := by
  constructor
  · intro env al ops
    have hstep : ∀ (st : MapperState × AllocatorState) (op : MapperOp),
        (keysOf st.1.mappings).Nodup → (keysOf ((mapperStep env st op).1.mappings)).Nodup := by
      intro st op hnd
      cases op with
      | map mm oo ss pp =>
        rcases mapMemory_mapper_cases env st.1 st.2 mm oo ss pp with hc | ⟨info, hc⟩
        · simpa [mapperStep, hc] using hnd
        · simp only [mapperStep, hc]
          exact keysOf_upsertA_nodup mm info st.1.mappings hnd
      | unmap mm =>
        rcases unmapMemory_mapper_cases env st.1 st.2 mm with hc | hc
        · simpa [mapperStep, hc] using hnd
        · simp only [mapperStep, hc]
          exact keysOf_eraseA_nodup mm st.1.mappings hnd
    have hfold : ∀ (ops : List MapperOp) (st : MapperState × AllocatorState),
        (keysOf st.1.mappings).Nodup →
          (keysOf ((ops.foldl (mapperStep env) st).1.mappings)).Nodup := by
      intro ops
      induction ops with
      | nil => intro st h; exact h
      | cons op rest ih => intro st h; exact ih _ (hstep st op h)
    exact hfold ops (⟨[]⟩, al) (by simp [keysOf])
  · intro env ms al m o sz p info h
    unfold mapMemory
    rw [h]

/-- Witness for C8: remapping memory object 5, already mapped at the
driver address 600000, returns that address and changes nothing. -/
theorem c8_at_most_one_mapping_per_memory_witness :
    mapMemory envRedirectOk ⟨[(5, ⟨5, 0, 32, 600000, 600000, false⟩)]⟩
        (freshPool 4096 65536) 5 0 32 none =
      ⟨.success, some 600000, ⟨[(5, ⟨5, 0, 32, 600000, 600000, false⟩)]⟩,
        freshPool 4096 65536, 0⟩ :=
  c8_at_most_one_mapping_per_memory.2 envRedirectOk
    ⟨[(5, ⟨5, 0, 32, 600000, 600000, false⟩)]⟩ (freshPool 4096 65536) 5 0 32 none
    ⟨5, 0, 32, 600000, 600000, false⟩ (by decide)

/-- Claim C9.  Freeing an address with no allocation record returns the
failure flag with the allocator state untouched, and unmapping a memory
object with no active mapping — including a second unmap of the same
object — returns success with the mapper and allocator untouched and
without calling the driver's unmap. -/
theorem c9_unknown_handle_noop :
    (∀ (s : AllocatorState) (addr : Nat),
        lookupA addr s.allocations = none → deallocateAddress s addr = (false, s)) ∧
    (∀ (env : MapperEnv) (ms : MapperState) (al : AllocatorState) (m : Nat),
        lookupA m ms.mappings = none → unmapMemory env ms al m = ⟨.success, ms, al, 0⟩) := by
  constructor
  · intro s addr h
    unfold deallocateAddress
    by_cases ha : addr = 0
    · rw [if_pos ha]
    · rw [if_neg ha, h]
  · intro env ms al m h
    unfold unmapMemory
    rw [h]

/-- Witness for C9: freeing never-allocated address 777 and unmapping
never-mapped memory object 9 both change nothing. -/
theorem c9_unknown_handle_noop_witness :
    deallocateAddress (freshPool 4096 65536) 777 = (false, freshPool 4096 65536) ∧
    unmapMemory envRedirectOk ⟨[]⟩ (freshPool 4096 65536) 9 =
      ⟨.success, ⟨[]⟩, freshPool 4096 65536, 0⟩ :=
  ⟨c9_unknown_handle_noop.1 (freshPool 4096 65536) 777 (by decide),
   c9_unknown_handle_noop.2 envRedirectOk ⟨[]⟩ (freshPool 4096 65536) 9 (by decide)⟩

/-- Counterexample to claim C10 as stated: in the dispatch router, with an
instance tracked (`instance_dispatch_tables_` = {1}) but no
device-to-instance association for device 5, a forward of "vkQueueSubmit"
fails outright — `VulkanDispatch::GetDeviceProcAddr` never falls back to
any tracked instance (the derivation through instance 1 would have
succeeded, as the last conjunct shows), so forwarding can fail while
instances are tracked. -/
theorem c10_forwarding_fails_despite_tracked_instances :
    (dispatchGdpa dispatchEnvNoGlobal ⟨[1], [], []⟩ 5 "vkQueueSubmit").1 = .nullPtr ∧
    (⟨[1], [], []⟩ : DispatchState).instanceTables ≠ [] ∧
    dispatchEnvNoGlobal.maliDerivedGdpa 1 = true ∧
    dispatchEnvNoGlobal.maliDevFn 5 "vkQueueSubmit" = true :=
  ⟨by decide, by decide, by decide, by decide⟩

/-- Claim C10 (amended).  For a device-level name that must be forwarded:
the ICD router (`internal_vkGetDeviceProcAddr`) fails when no instance is
tracked, and otherwise either fails or forwards through the first tracked
instance in iteration order (there is no recency-based choice); the
dispatch router (`VulkanDispatch::GetDeviceProcAddr`) consults only the
recorded device-to-instance association and, when there is none and no
process-wide device resolver was cached at load time, fails even while
instances are tracked. -/
theorem c10_fallback_is_single_stage :
    (∀ (env : IcdEnv) (device : Nat) (name : String),
        name ≠ "vkCreateSwapchainKHR" → name ≠ "vkGetDeviceProcAddr" →
        isWSIFunction name = false →
        (strstrB name "RayTracing" || strstrB name "MeshTask") = false →
        env.managed = [] → gdpaRoute env device name = .nullPtr) ∧
    (∀ (env : IcdEnv) (device : Nat) (name : String) (i : Nat) (t : List Nat),
        name ≠ "vkCreateSwapchainKHR" → name ≠ "vkGetDeviceProcAddr" →
        isWSIFunction name = false →
        (strstrB name "RayTracing" || strstrB name "MeshTask") = false →
        env.managed = i :: t →
        (gdpaRoute env device name = .nullPtr ∨
          gdpaRoute env device name = .maliDev i name)) ∧
    (∀ (env : DispatchEnv) (s : DispatchState) (device : Nat) (name : String),
        cachedHit s device name = false → env.extensionFn name = false →
        lookupA device s.deviceToInstance = none → env.maliGlobalGdpa = false →
        (dispatchGdpa env s device name).1 = .nullPtr) := by
  refine ⟨?_, ?_, ?_⟩
  · intro env device name h1 h2 h3 h4 h5
    unfold gdpaRoute
    rw [if_neg h1, h3, if_neg Bool.false_ne_true, if_neg h2, h4,
      if_neg Bool.false_ne_true, h5]
    cases hm : env.maliGipaAvail <;> simp [hm]
  · intro env device name i t h1 h2 h3 h4 h5
    unfold gdpaRoute
    rw [if_neg h1, h3, if_neg Bool.false_ne_true, if_neg h2, h4,
      if_neg Bool.false_ne_true, h5]
    cases h6 : env.maliGipaAvail <;>
      cases h7 : env.maliGipaFn (some i) "vkGetDeviceProcAddr" <;>
        cases h8 : env.maliDevFn device name <;> simp [h6, h7, h8]
  · intro env s device name hc he ha hg
    cases hl : env.maliLoaded <;>
      simp [dispatchGdpa, maliLoaderGdpa, hc, he, ha, hg, hl]

/-- Witness for amended C10: the dispatch router fails on an unassociated
device in the no-cached-resolver environment, and the ICD router fails
with no tracked instance. -/
theorem c10_fallback_is_single_stage_witness :
    (dispatchGdpa dispatchEnvNoGlobal ⟨[1], [], []⟩ 6 "vkCmdDraw").1 = .nullPtr ∧
    gdpaRoute icdEnvMaliAll 6 "vkCmdDraw" = .nullPtr :=
  ⟨c10_fallback_is_single_stage.2.2 dispatchEnvNoGlobal ⟨[1], [], []⟩ 6 "vkCmdDraw"
      (by decide) (by decide) (by decide) (by decide),
   c10_fallback_is_single_stage.1 icdEnvMaliAll 6 "vkCmdDraw"
      (by decide) (by decide) (by decide) (by decide) (by decide)⟩

end MaliWrapper
